import Mathlib

/-!
Shallow embedding of the agentid Python SDK core (signature, cache,
verifier, permission evaluator, credential handle, revocation subscriber)
together with proofs settling the frozen claims about its specification.

Modelling conventions, used throughout:
- Python strings are Lean `String`; byte strings are `List Nat`.
- Times, TTLs and timestamps are modelled as integer seconds (`Int`).
  The source holds them as Python floats, but only ever adds and compares
  them, so the embedding is parametric in the time domain; integer times
  keep every definition kernel-computable.
- Python `dict` objects are association lists whose operations mirror
  dict semantics (first occurrence wins, insertion order preserved,
  update replaces in place).
- Python truthiness is modelled explicitly where the source relies on it
  (empty string, empty list, zero, `None` are falsy).
- Network and system effects are passed in explicitly: the outcome of an
  HTTP call is a parameter, and the current time is a parameter.
-/

deriving instance DecidableEq for Except

/-- Truthiness of a Python `Optional[str]`: `None` and the empty string
are falsy, every other string is truthy. -/
def pyTruthy (o : Option String) : Bool :=
  !(o.getD "" == "")

/-- One character of a Python ASCII whitespace set stripped by `int(str)`. -/
def isPySpace (c : Char) : Bool :=
  c == ' ' || c == '\t' || c == '\n' || c == '\r' || c == '\x0b' || c == '\x0c'

/-- Digit run accepted by Python `int(str)` after the first digit: decimal
digits with single underscores allowed between digits. Accumulates the value. -/
def pyDigitsCore : List Char → Nat → Option Nat
  | [], acc => some acc
  | '_' :: c :: rest, acc =>
      if c.isDigit then pyDigitsCore rest (acc * 10 + (c.toNat - 48)) else none
  | c :: rest, acc =>
      if c.isDigit then pyDigitsCore rest (acc * 10 + (c.toNat - 48)) else none

/-- Unsigned digit part of Python `int(str)`: nonempty, must not start with
an underscore. -/
def pyDigits : List Char → Option Nat
  | [] => none
  | '_' :: _ => none
  | c :: rest => if c.isDigit then pyDigitsCore rest (c.toNat - 48) else none

/-- Python `int(str)` on ASCII input: strips whitespace, accepts an optional
sign, then decimal digits with single underscores between digits. Returns
`none` where Python raises `ValueError`. -/
def pythonInt (s : String) : Option Int :=
  let cs := ((s.data.dropWhile isPySpace).reverse.dropWhile isPySpace).reverse
  match cs with
  | '+' :: rest => (pyDigits rest).map Int.ofNat
  | '-' :: rest => (pyDigits rest).map (fun n => -(Int.ofNat n))
  | rest => (pyDigits rest).map Int.ofNat

/-- Python `str.lower()` on ASCII input (header names are ASCII); defined
over the character list so that it computes by kernel reduction. -/
def asciiLower (s : String) : String :=
  String.mk (s.data.map Char.toLower)

/-- Python `str.upper()` on ASCII input (HTTP methods are ASCII). -/
def asciiUpper (s : String) : String :=
  String.mk (s.data.map Char.toUpper)

/-- Lookup in an association list modelling a Python `dict` (first, hence
only, occurrence of the key). -/
def dictFind {β : Type} : List (String × β) → String → Option β
  | [], _ => none
  | (k2, v) :: rest, k => if k2 = k then some v else dictFind rest k

/-- Python `dict` update `d[k] = v`: replaces the value in place if the key
exists, otherwise appends the new binding. -/
def dictSet {β : Type} : List (String × β) → String → β → List (String × β)
  | [], k, v => [(k, v)]
  | (k2, v2) :: rest, k, v =>
      if k2 = k then (k, v) :: rest else (k2, v2) :: dictSet rest k v

/-- Python `del d[k]` (with `in` guard): removes the binding of `k` if present. -/
def dictErase {β : Type} : List (String × β) → String → List (String × β)
  | [], _ => []
  | (k2, v) :: rest, k => if k2 = k then rest else (k2, v) :: dictErase rest k

/-! ## Data model, from `agentid/types.py`

`metadata : dict[str, Any]` from the source is omitted: its values are
untyped and no claim depends on it. Numeric amounts
(`max_transaction_amount`, `daily_spend_limit`, context amounts) are
modelled as `Int`. -/

/-- `IssuerInfo` from `types.py`. -/
structure IssuerInfo where
  issuerId : String
  name : String
  issuerType : Option String := none
  domain : Option String := none
  isVerified : Bool := false
deriving DecidableEq

/-- `PermissionConditions` from `types.py`. -/
structure PermissionConditions where
  validHours : Option (List (String × String)) := none
  validDays : Option (List String) := none
  maxRequestsPerMinute : Option Int := none
  maxRequestsPerDay : Option Int := none
  maxRecordsPerRequest : Option Int := none
  allowedFields : Option (List String) := none
  allowedRegions : Option (List String) := none
  maxTransactionAmount : Option Int := none
  dailySpendLimit : Option Int := none
  requiresApproval : Bool := false
  approvalWebhook : Option String := none
deriving DecidableEq

/-- `Permission` from `types.py`. -/
structure Permission where
  resource : String
  actions : List String
  conditions : Option PermissionConditions := none
deriving DecidableEq

/-- An element of `list[str | Permission]`: a credential permission is
either a bare action string (legacy form) or a structured permission.
A `dict` element, which the source converts with `Permission(**perm)`,
is covered by the structured case. -/
inductive PyPermission where
  | strPerm (s : String)
  | structPerm (p : Permission)
deriving DecidableEq

/-- `CredentialConstraints` from `types.py`; instants as integer seconds. -/
structure CredentialConstraints where
  validFrom : Int
  validUntil : Int
  allowedDomains : Option (List String) := none
  rateLimit : Option Int := none
deriving DecidableEq

/-- `CredentialPayload` from `types.py` (without the untyped `metadata`). -/
structure CredentialPayload where
  credentialId : String
  agentId : String
  agentName : String
  agentType : Option String := none
  issuer : IssuerInfo
  permissions : List PyPermission := []
  constraints : CredentialConstraints
  signature : String
deriving DecidableEq

/-- `PermissionPolicyInfo` from `types.py`. -/
structure PermissionPolicyInfo where
  id : String
  name : String
  version : Int
deriving DecidableEq

/-- `VerificationResult` from `types.py`. -/
structure VerificationResult where
  valid : Bool
  credential : Option CredentialPayload := none
  error : Option String := none
  errorCode : Option String := none
  trustScore : Option Int := none
  issuerVerified : Option Bool := none
  permissionPolicy : Option PermissionPolicyInfo := none
  livePermissions : Option Bool := none
deriving DecidableEq

/-! ## Cache, from `agentid/cache.py`

The cache stores Python dicts; the stored value type is a parameter `α`
(the source class is used with verification-result dicts and credential
dicts). `time.time()` is passed explicitly as `now : Int`. -/

/-- `CacheEntry` from `cache.py`: a cached value with expiration. -/
structure CacheEntry (α : Type) where
  value : α
  expiresAt : Int
  createdAt : Int
deriving DecidableEq

/-- `CacheEntry.is_expired`: `time.time() >= self.expires_at`. -/
def CacheEntry.isExpired {α : Type} (e : CacheEntry α) (now : Int) : Bool :=
  decide (e.expiresAt ≤ now)

/-- `CacheEntry.time_to_live`: `max(0, self.expires_at - time.time())`. -/
def CacheEntry.timeToLive {α : Type} (e : CacheEntry α) (now : Int) : Int :=
  max 0 (e.expiresAt - now)

/-- `CredentialCache` from `cache.py`: the underlying dict plus the default
TTL fixed at construction (source default 300.0 seconds). -/
structure CredentialCache (α : Type) where
  cache : List (String × CacheEntry α)
  defaultTtl : Int
deriving DecidableEq

/-- `CredentialCache.get`: returns the cached value, or `none` if absent or
expired; an expired entry is removed (lazy expiry), so the possibly updated
cache is returned alongside the value. -/
def CredentialCache.get {α : Type} (c : CredentialCache α) (key : String) (now : Int) :
    Option α × CredentialCache α :=
  match dictFind c.cache key with
  | none => (none, c)
  | some e =>
      if e.isExpired now then (none, { c with cache := dictErase c.cache key })
      else (some e.value, c)

/-- `CredentialCache.set`: stores an entry expiring at `now + ttl`, with the
default TTL when no explicit TTL is given. -/
def CredentialCache.set {α : Type} (c : CredentialCache α) (key : String) (value : α)
    (ttl : Option Int) (now : Int) : CredentialCache α :=
  let t := ttl.getD c.defaultTtl
  { c with cache := dictSet c.cache key { value := value, expiresAt := now + t, createdAt := now } }

/-- `CredentialCache.delete`: removes a key, reporting whether it was present. -/
def CredentialCache.delete {α : Type} (c : CredentialCache α) (key : String) :
    Bool × CredentialCache α :=
  match dictFind c.cache key with
  | some _ => (true, { c with cache := dictErase c.cache key })
  | none => (false, c)

/-- `CredentialCache.cleanup_expired`: removes all expired entries and counts them. -/
def CredentialCache.cleanupExpired {α : Type} (c : CredentialCache α) (now : Int) :
    Nat × CredentialCache α :=
  let expired := c.cache.filter (fun p => p.2.isExpired now)
  (expired.length, { c with cache := c.cache.filter (fun p => !(p.2.isExpired now)) })

/-- `CredentialCache.size`: number of entries. -/
def CredentialCache.size {α : Type} (c : CredentialCache α) : Nat :=
  c.cache.length

/-- `CredentialCache.get_ttl`: remaining TTL of an unexpired entry. -/
def CredentialCache.getTtl {α : Type} (c : CredentialCache α) (key : String) (now : Int) :
    Option Int :=
  match dictFind c.cache key with
  | none => none
  | some e => if e.isExpired now then none else some (e.timeToLive now)

/-! ## Signatures, from `agentid/signature.py`

The cryptographic primitives (`hashlib.sha256`, `hmac`, `base64`) and the
UTF-8 encoding are external library functions; the embedding is
parameterized over them with a `CryptoPrims` record. Digests are byte
lists (`List Nat`). -/

/-- External primitives used by `signature.py`: `str.encode("utf-8")`,
`hashlib.sha256(...).hexdigest()`, `hashlib.sha256(...).digest()`,
`hmac.new(key, msg, sha256).digest()` and `base64.b64encode(...).decode()`. -/
structure CryptoPrims where
  utf8 : String → List Nat
  sha256hex : List Nat → String
  sha256digest : List Nat → List Nat
  hmacSha256digest : List Nat → List Nat → List Nat
  b64encode : List Nat → String

/-- A Python `str | bytes | None` request body. -/
inductive PyBody where
  | noneB
  | strB (s : String)
  | bytesB (b : List Nat)
deriving DecidableEq

/-- The `body_hash` computed by `generate_request_signature`: empty string
for a falsy body (`None`, `""`, `b""`), otherwise the SHA-256 hex digest of
the body bytes (a `str` body is UTF-8 encoded first). -/
def bodyHash (p : CryptoPrims) : PyBody → String
  | .noneB => ""
  | .strB s => if s = "" then "" else p.sha256hex (p.utf8 s)
  | .bytesB b => if b = [] then "" else p.sha256hex b

/-- The canonical signing string
`METHOD \n URL \n TIMESTAMP \n CREDENTIAL_ID \n BODY_HASH`. -/
def signingString (method url : String) (timestamp : Int) (credentialId bh : String) :
    String :=
  asciiUpper method ++ "\n" ++ url ++ "\n" ++ toString timestamp ++ "\n" ++ credentialId
    ++ "\n" ++ bh

/-- `generate_request_signature` from `signature.py`: HMAC-SHA256 of the
signing string under a truthy secret, plain SHA-256 otherwise (`if secret:`
is falsy for `None` and for the empty string), base64-encoded. -/
def generateRequestSignature (p : CryptoPrims) (method url : String) (body : PyBody)
    (timestamp : Int) (credentialId : String) (secret : Option String) : String :=
  let ss := signingString method url timestamp credentialId (bodyHash p body)
  let sigBytes :=
    match secret with
    | some sec =>
        if sec = "" then p.sha256digest (p.utf8 ss)
        else p.hmacSha256digest (p.utf8 sec) (p.utf8 ss)
    | none => p.sha256digest (p.utf8 ss)
  p.b64encode sigBytes

/-- `verify_request_signature` from `signature.py`: raises `SignatureError`
(the `.error` case) when `|now - timestamp| > max_age_seconds`, otherwise
recomputes the expected signature and compares (`hmac.compare_digest` on
equal-typed strings is equality, timing aside). `current_time` stands for
`int(time.time())`. -/
def verifyRequestSignature (p : CryptoPrims) (signature method url : String)
    (body : PyBody) (timestamp : Int) (credentialId secret : String)
    (maxAgeSeconds : Int) (currentTime : Int) : Except String Bool :=
  if abs (currentTime - timestamp) > maxAgeSeconds then
    .error s!"Request timestamp too old (max age: {maxAgeSeconds}s)"
  else
    .ok (signature == generateRequestSignature p method url body timestamp credentialId
      (some secret))

/-- `RequestSigner.sign_request` from `signature.py`. The minted timestamp
(`int(time.time())`) and the random nonce (`generate_nonce()`) are passed
explicitly. Returns the four headers. -/
def signRequest (p : CryptoPrims) (credentialId : String) (signingSecret : Option String)
    (now : Int) (nonce : String) (method url : String) (body : PyBody) :
    List (String × String) :=
  let timestamp := now
  let signature := generateRequestSignature p method url body timestamp credentialId
    signingSecret
  [("X-AgentID-Credential", credentialId),
   ("X-AgentID-Timestamp", toString timestamp),
   ("X-AgentID-Nonce", nonce),
   ("X-AgentID-Signature", signature)]

/-! ## Verifier, from `agentid/verifier.py` -/

/-- The `CredentialVerifier` configuration fields relevant to verification
decisions (constructor defaults from the source). -/
structure VerifierConfig where
  cacheTtl : Int := 300
  verifySignature : Bool := true
  signatureMaxAge : Int := 300
deriving DecidableEq

/-- `CredentialVerifier._extract_credential_info`: builds a dict keyed by
lower-cased header names (later duplicates overwrite earlier ones, as in the
Python dict comprehension) and reads the four `x-agentid-*` entries. -/
def extractCredentialInfo (headers : List (String × String)) :
    Option String × Option String × Option String × Option String :=
  let normalized := headers.foldl (fun acc kv => dictSet acc (asciiLower kv.1) kv.2) []
  (dictFind normalized "x-agentid-credential",
   dictFind normalized "x-agentid-timestamp",
   dictFind normalized "x-agentid-nonce",
   dictFind normalized "x-agentid-signature")

/-- Result of the local phase of `verify_request`: either a locally produced
`VerificationResult` (no network call is made), or the continuation into
`verify_credential(credential_id)`, which is the only path that can reach
the network. -/
inductive VerifyStep where
  | localResult (r : VerificationResult)
  | remoteVerify (credentialId : String)
deriving DecidableEq

/-- The `{valid: False, error_code: MISSING_CREDENTIAL}` result. -/
def missingCredentialResult : VerificationResult :=
  { valid := false, error := some "Missing X-AgentID-Credential header",
    errorCode := some "MISSING_CREDENTIAL" }

/-- The `{valid: False, error_code: MISSING_SIGNATURE}` result. -/
def missingSignatureResult : VerificationResult :=
  { valid := false, error := some "Missing signature headers",
    errorCode := some "MISSING_SIGNATURE" }

/-- The `{valid: False, error_code: SIGNATURE_EXPIRED}` result. -/
def signatureExpiredResult : VerificationResult :=
  { valid := false, error := some "Request signature expired",
    errorCode := some "SIGNATURE_EXPIRED" }

/-- The `{valid: False, error_code: INVALID_TIMESTAMP}` result. -/
def invalidTimestampResult : VerificationResult :=
  { valid := false, error := some "Invalid timestamp",
    errorCode := some "INVALID_TIMESTAMP" }

/-- `CredentialVerifier.verify_request` (sync), local fast-fail phase:
missing or empty credential header fails with `MISSING_CREDENTIAL`; with
signature verification enabled, a missing or empty timestamp or signature
header fails with `MISSING_SIGNATURE`, an unparseable timestamp with
`INVALID_TIMESTAMP` (the `except ValueError` branch), a timestamp outside
`signature_max_age` of `time.time()` with `SIGNATURE_EXPIRED`; otherwise the
call proceeds into `verify_credential(credential_id)`. `now : Int` stands for
`time.time()`. -/
def verifyRequestStep (cfg : VerifierConfig) (headers : List (String × String))
    (now : Int) : VerifyStep :=
  match extractCredentialInfo headers with
  | (credentialId, timestamp, _nonce, signature) =>
    if !pyTruthy credentialId then .localResult missingCredentialResult
    else if cfg.verifySignature then
      if !pyTruthy timestamp || !pyTruthy signature then
        .localResult missingSignatureResult
      else
        match pythonInt (timestamp.getD "") with
        | none => .localResult invalidTimestampResult
        | some ts =>
            if abs (now - ts) > cfg.signatureMaxAge then
              .localResult signatureExpiredResult
            else .remoteVerify (credentialId.getD "")
    else .remoteVerify (credentialId.getD "")

/-- `CredentialVerifier.verify_request_async`: its body is textually
identical to the sync `verify_request` except that the final step awaits
`verify_credential_async`. -/
def verifyRequestAsyncStep (cfg : VerifierConfig) (headers : List (String × String))
    (now : Int) : VerifyStep :=
  match extractCredentialInfo headers with
  | (credentialId, timestamp, _nonce, signature) =>
    if !pyTruthy credentialId then .localResult missingCredentialResult
    else if cfg.verifySignature then
      if !pyTruthy timestamp || !pyTruthy signature then
        .localResult missingSignatureResult
      else
        match pythonInt (timestamp.getD "") with
        | none => .localResult invalidTimestampResult
        | some ts =>
            if abs (now - ts) > cfg.signatureMaxAge then
              .localResult signatureExpiredResult
            else .remoteVerify (credentialId.getD "")
    else .remoteVerify (credentialId.getD "")

/-! ## Permission evaluator, from `check_permission` in `agentid/verifier.py`

Resource patterns go through the standard library `fnmatch.fnmatch`, which
on POSIX is case-sensitive anchored glob matching with `*`, `?` and
bracket classes; it is embedded here as `globMatch`. -/

/-- Bracket-class membership: literal characters and `a-b` ranges, as in
the regex `fnmatch.translate` produces. -/
def classMatch : List Char → Char → Bool
  | [], _ => false
  | a :: '-' :: b :: rest, c =>
      if a ≤ c ∧ c ≤ b then true else classMatch rest c
  | a :: rest, c => if a = c then true else classMatch rest c

/-- Splits a bracket class body at its closing `]`, returning the content
and the remaining pattern, or `none` when the bracket is unmatched. -/
def findClose : List Char → Option (List Char × List Char)
  | [] => none
  | ']' :: rest => some ([], rest)
  | c :: rest => (findClose rest).map (fun pr => (c :: pr.1, pr.2))

/-- Parses the pattern after an opening `[`: an optional leading `!`
(negation), a `]` in first content position taken literally, then content
up to the closing `]`. Returns (negated, class content, rest of pattern). -/
def parseClass (l : List Char) : Option (Bool × List Char × List Char) :=
  match l with
  | '!' :: ']' :: t => (findClose t).map (fun pr => (true, ']' :: pr.1, pr.2))
  | '!' :: t => (findClose t).map (fun pr => (true, pr.1, pr.2))
  | ']' :: t => (findClose t).map (fun pr => (false, ']' :: pr.1, pr.2))
  | _ => (findClose l).map (fun pr => (false, pr.1, pr.2))

/-- `fnmatch`-style glob matching, structurally recursive on a fuel
argument so that it computes by kernel reduction: `*` matches any run of
characters, `?` any single character, `[...]` a character class (negated
by `!`, unmatched `[` taken literally). Every recursive call strictly
shrinks `name.length + pattern.length`, so fuel equal to that sum (as
supplied by `globMatch`) never runs out and the fuel-exhausted catch-all
is unreachable. -/
def globMatchFuel : Nat → List Char → List Char → Bool
  | _, n, [] => n.isEmpty
  | fuel + 1, n, '*' :: ps =>
      globMatchFuel fuel n ps ||
        (match n with
         | [] => false
         | _ :: nt => globMatchFuel fuel nt ('*' :: ps))
  | _ + 1, [], '?' :: _ => false
  | fuel + 1, _ :: nt, '?' :: ps => globMatchFuel fuel nt ps
  | fuel + 1, n, '[' :: ps =>
      (match parseClass ps with
       | some (neg, cls, rest) =>
           (match n with
            | [] => false
            | c :: nt => (classMatch cls c != neg) && globMatchFuel fuel nt rest)
       | none =>
           (match n with
            | [] => false
            | c :: nt => (c = '[' : Bool) && globMatchFuel fuel nt ps))
  | _ + 1, [], _ :: _ => false
  | fuel + 1, c :: nt, pc :: ps => (c = pc : Bool) && globMatchFuel fuel nt ps
  | 0, _, _ => false

/-- Anchored glob matching with sufficient fuel. -/
def globMatch (name pattern : List Char) : Bool :=
  globMatchFuel (name.length + pattern.length) name pattern

/-- `fnmatch.fnmatch(resource, pattern)` on strings. -/
def fnmatchB (name pattern : String) : Bool :=
  globMatch name.data pattern.data

/-- The runtime context dict passed to `check_permission`; only the
`"amount"` and `"region"` keys are read by the source. -/
structure PermContext where
  amount : Option Int := none
  region : Option String := none
deriving DecidableEq

/-- The `{"granted": ..., "reason": ...}` dict returned by `check_permission`. -/
structure CheckResult where
  granted : Bool
  reason : Option String := none
deriving DecidableEq

/-- The amount-limit block of `check_permission`: fires only when
`max_transaction_amount` is truthy (present and nonzero), the context
amount is truthy (present and nonzero) and exceeds the limit. -/
def amountCheck (conds : PermissionConditions) (ctx : PermContext) :
    Option CheckResult :=
  match conds.maxTransactionAmount with
  | some limit =>
      if limit ≠ 0 then
        match ctx.amount with
        | some amount =>
            if amount ≠ 0 ∧ amount > limit then
              some { granted := false,
                     reason := some s!"Amount {amount} exceeds limit {limit}" }
            else none
        | none => none
      else none
  | none => none

/-- The region block of `check_permission`: fires only when
`allowed_regions` is truthy (present and nonempty), the context region is
truthy (present and nonempty) and not in the allow-list. -/
def regionCheck (conds : PermissionConditions) (ctx : PermContext) :
    Option CheckResult :=
  match conds.allowedRegions with
  | some regions =>
      if regions ≠ [] then
        match ctx.region with
        | some region =>
            if region ≠ "" ∧ region ∉ regions then
              some { granted := false, reason := some s!"Region {region} not allowed" }
            else none
        | none => none
      else none
  | none => none

/-- The conditions block of `check_permission`, in source order: the
`valid_hours` and `max_requests_per_minute` branches are `pass` (parsed but
not enforced), then the amount limit, then the region allow-list. Returns
the denial produced by the first failing enforced check, if any. -/
def checkConditions (conds : PermissionConditions) (ctx : PermContext) :
    Option CheckResult :=
  match amountCheck conds ctx with
  | some denial => some denial
  | none => regionCheck conds ctx

/-- `check_permission` from `verifier.py`: iterates the permission list in
order; a bare string grants iff it is `"*"` or equals the action; a
structured permission is skipped unless the resource glob-matches and the
action is allowed, then its conditions are evaluated when both conditions
and a truthy context are present; exhaustion denies with the
no-permission reason. A supplied-but-empty context dict is falsy in the
source; it is outcome-equivalent to evaluating the checks with an empty
context, and is modelled by `some` of the empty `PermContext`. -/
def checkPermission (permissions : List PyPermission) (resource action : String)
    (context : Option PermContext) : CheckResult :=
  match permissions with
  | [] =>
      { granted := false, reason := some s!"No permission for {action} on {resource}" }
  | .strPerm s :: rest =>
      if s = "*" ∨ s = action then { granted := true }
      else checkPermission rest resource action context
  | .structPerm p :: rest =>
      if !fnmatchB resource p.resource then checkPermission rest resource action context
      else if !(p.actions.contains action) && !(p.actions.contains "*") then
        checkPermission rest resource action context
      else
        match p.conditions, context with
        | some conds, some ctx =>
            (match checkConditions conds ctx with
             | some denial => denial
             | none => { granted := true })
        | _, _ => { granted := true }

/-! ## Remote call outcomes and typed errors

`exceptions.py` defines the typed error hierarchy; the constructors below
mirror the exception classes that the verification paths raise.
`valueError` stands for an untyped Python `ValueError` escaping the SDK
(raised by `int(...)` on a non-integer `Retry-After` header value). -/

/-- Typed errors from `exceptions.py`, plus `valueError` for an untyped
`ValueError` escaping. -/
inductive AgentIdErr where
  | network (msg : String)
  | rateLimit (retryAfter : Option Int)
  | authenticationFailed
  | notFound (msg : String)
  | generic (msg : String) (errorCode : Option String)
  | expired (msg : String)
  | revoked (msg : String)
  | invalid (msg : String)
  | valueError
deriving DecidableEq

/-- An HTTP response from the remote verify endpoint: status code, the
`Retry-After` header if any, and the JSON body parsed into a
`VerificationResult` (`none` models a body that fails to parse as JSON;
JSON `null` and absent fields are conflated as `none` inside the result). -/
structure ApiResponse where
  statusCode : Nat
  retryAfter : Option String := none
  body : Option VerificationResult := none
deriving DecidableEq

/-- Outcome of attempting the HTTP POST itself: a transport failure
(`httpx.RequestError`, wrapped into `NetworkError`) or a response. -/
inductive FetchOutcome where
  | networkFailure
  | response (resp : ApiResponse)
deriving DecidableEq

/-- `int(retry_after) if retry_after else None`: a falsy header (absent or
empty) gives `None`; a truthy non-integer one raises `ValueError`
(the `.error` case). -/
def parseRetryAfter (retryAfter : Option String) : Except Unit (Option Int) :=
  if pyTruthy retryAfter then
    match pythonInt (retryAfter.getD "") with
    | some n => .ok (some n)
    | none => .error ()
  else .ok none

/-- `CredentialVerifier._handle_response`: HTTP 429 raises `RateLimitError`
(after parsing `Retry-After`); an unparseable body raises a generic
`AgentIDError` (message modelled without the embedded exception text); any
other response body becomes a `VerificationResult` regardless of status. -/
def handleResponse (resp : ApiResponse) : Except AgentIdErr VerificationResult :=
  if resp.statusCode == 429 then
    match parseRetryAfter resp.retryAfter with
    | .ok ra => .error (.rateLimit ra)
    | .error _ => .error .valueError
  else
    match resp.body with
    | none => .error (.generic "Invalid response" none)
    | some data => .ok data

/-- `CredentialVerifier.verify_credential` (sync): consult the cache under
`verify:<id>` when `use_cache` (a hit returns the cached result and skips
the network); otherwise the supplied fetch outcome is handled by
`_handle_response`, and a valid result is cached under the same key with
the configured `cache_ttl`. Returns the result (or raised error) and the
updated shared cache. -/
def verifyCredentialStep (cfg : VerifierConfig) (outcome : FetchOutcome)
    (credentialId : String) (useCache : Bool) (now : Int)
    (cache : CredentialCache VerificationResult) :
    Except AgentIdErr VerificationResult × CredentialCache VerificationResult :=
  let cacheKey := "verify:" ++ credentialId
  let checked := if useCache then cache.get cacheKey now else (none, cache)
  match checked with
  | (some r, cache1) => (.ok r, cache1)
  | (none, cache1) =>
    match outcome with
    | .networkFailure => (.error (.network "Failed to verify credential"), cache1)
    | .response resp =>
      match handleResponse resp with
      | .error e => (.error e, cache1)
      | .ok result =>
          if useCache && result.valid then
            (.ok result, cache1.set cacheKey result (some cfg.cacheTtl) now)
          else (.ok result, cache1)

/-- `CredentialVerifier.verify_credential_async`: body identical to the
sync variant except for awaiting the HTTP call. -/
def verifyCredentialAsyncStep (cfg : VerifierConfig) (outcome : FetchOutcome)
    (credentialId : String) (useCache : Bool) (now : Int)
    (cache : CredentialCache VerificationResult) :
    Except AgentIdErr VerificationResult × CredentialCache VerificationResult :=
  let cacheKey := "verify:" ++ credentialId
  let checked := if useCache then cache.get cacheKey now else (none, cache)
  match checked with
  | (some r, cache1) => (.ok r, cache1)
  | (none, cache1) =>
    match outcome with
    | .networkFailure => (.error (.network "Failed to verify credential"), cache1)
    | .response resp =>
      match handleResponse resp with
      | .error e => (.error e, cache1)
      | .ok result =>
          if useCache && result.valid then
            (.ok result, cache1.set cacheKey result (some cfg.cacheTtl) now)
          else (.ok result, cache1)

/-- One call in a sequence against a fixed verifier: the fetch outcome the
network would produce, the credential id, the `use_cache` flag, the call
time, and whether the async variant is used. -/
structure VerifyCall where
  outcome : FetchOutcome
  credentialId : String
  useCache : Bool := true
  now : Int
  isAsync : Bool := false

/-- Runs a sequence of `verify_credential` / `verify_credential_async`
calls against one verifier, threading the shared cache. -/
def runVerifyCalls (cfg : VerifierConfig) (calls : List VerifyCall)
    (cache : CredentialCache VerificationResult) : CredentialCache VerificationResult :=
  calls.foldl
    (fun c call =>
      if call.isAsync then
        (verifyCredentialAsyncStep cfg call.outcome call.credentialId call.useCache
          call.now c).2
      else
        (verifyCredentialStep cfg call.outcome call.credentialId call.useCache
          call.now c).2)
    cache

/-- The cache invariant claimed for the verifier: every entry stored under
a `verify:` key holds a valid result and was written with the verifier TTL
(its expiry is its creation time plus `ttl`). -/
def VerifyCacheInv (ttl : Int) (c : CredentialCache VerificationResult) : Prop :=
  ∀ p ∈ c.cache, p.1.startsWith "verify:" = true →
    p.2.value.valid = true ∧ p.2.expiresAt = p.2.createdAt + ttl

/-! ## Credential handle, from `agentid/credential.py` -/

/-- `AgentCredential.cache_key`: the key under which the credential handle
caches its fetched payload. -/
def agentCredentialCacheKey (credentialId : String) : String :=
  "credential:" ++ credentialId

/-- `httpx.Response.is_success`: a 2xx status. -/
def isSuccessStatus (code : Nat) : Bool :=
  200 ≤ code && code < 300

/-- Python `a or b` on an optional string and a default (falsy left operand
selects the default). -/
def pyOrStr (o : Option String) (d : String) : String :=
  if pyTruthy o then o.getD "" else d

/-- `AgentCredential._handle_verify_response`, in source order: HTTP 429
raises `RateLimitError` (parsing `Retry-After`); HTTP 401 raises
`AuthenticationError`; a body that fails to parse raises a generic
`AgentIDError`; HTTP 404 or body `error_code == "CREDENTIAL_NOT_FOUND"`
raises `CredentialNotFoundError`; any other non-2xx raises a generic
`AgentIDError` carrying the remote error code; otherwise the parsed result
is returned. -/
def handleVerifyResponse (credentialId : String) (resp : ApiResponse) :
    Except AgentIdErr VerificationResult :=
  if resp.statusCode == 429 then
    match parseRetryAfter resp.retryAfter with
    | .ok ra => .error (.rateLimit ra)
    | .error _ => .error .valueError
  else if resp.statusCode == 401 then .error .authenticationFailed
  else
    match resp.body with
    | none => .error (.generic "Invalid response from API" none)
    | some data =>
        if resp.statusCode == 404 || data.errorCode == some "CREDENTIAL_NOT_FOUND" then
          .error (.notFound s!"Credential not found: {credentialId}")
        else if !isSuccessStatus resp.statusCode then
          .error (.generic (data.error.getD "Unknown error") data.errorCode)
        else .ok data

/-- `AgentCredential._update_from_result`: an invalid result raises
`CredentialExpiredError` / `CredentialRevokedError` / `CredentialInvalidError`
according to `error_code`; a valid one adopts the payload (status updates
and the cache write are not observed by the claims and are omitted). -/
def updateFromResult (result : VerificationResult) :
    Except AgentIdErr (Option CredentialPayload) :=
  if !result.valid then
    match result.errorCode with
    | some "CREDENTIAL_EXPIRED" => .error (.expired (pyOrStr result.error "Credential expired"))
    | some "CREDENTIAL_REVOKED" => .error (.revoked (pyOrStr result.error "Credential revoked"))
    | _ => .error (.invalid (pyOrStr result.error "Credential invalid"))
  else .ok result.credential

/-- What `AgentCredential.load` / `load_async` raises or returns once it
has fetched from the API (cache-miss path): the fetch outcome goes through
`_handle_verify_response` and `_update_from_result`, and a valid result
without payload raises `CredentialInvalidError("No credential data
returned")`. -/
def loadFetchResult (credentialId : String) (outcome : FetchOutcome) :
    Except AgentIdErr CredentialPayload :=
  match outcome with
  | .networkFailure => .error (.network "Failed to connect to AgentID API")
  | .response resp =>
    match handleVerifyResponse credentialId resp with
    | .error e => .error e
    | .ok result =>
      match updateFromResult result with
      | .error e => .error e
      | .ok none => .error (.invalid "No credential data returned")
      | .ok (some cred) => .ok cred

/-! ## Revocation subscriber, from `agentid/revocation.py` -/

/-- `RevocationEvent` from `revocation.py`. -/
structure RevocationEvent where
  credentialId : String
  revokedAt : String
  reason : Option String := none
deriving DecidableEq

/-- The `RevocationSubscriber` state observed by the claims: the locally
held revoked-set (`_revoked_credentials`, a Python set modelled as a
duplicate-free list) and the shared cache. -/
structure SubscriberState (α : Type) where
  revokedCredentials : List String
  cache : CredentialCache α
deriving DecidableEq

/-- `RevocationSubscriber._handle_revocation_event`: adds the credential id
to the revoked-set and deletes the `verify:<id>` and `cred:<id>` cache
keys (the revocation callback, whose exceptions are swallowed, has no
effect on this state). -/
def handleRevocationEvent {α : Type} (st : SubscriberState α)
    (event : RevocationEvent) : SubscriberState α :=
  let revoked :=
    if st.revokedCredentials.contains event.credentialId then st.revokedCredentials
    else st.revokedCredentials ++ [event.credentialId]
  let c1 := (st.cache.delete ("verify:" ++ event.credentialId)).2
  let c2 := (c1.delete ("cred:" ++ event.credentialId)).2
  { revokedCredentials := revoked, cache := c2 }

/-- `RevocationSubscriber.is_revoked`: membership in the local revoked-set. -/
def isRevoked {α : Type} (st : SubscriberState α) (credentialId : String) : Bool :=
  st.revokedCredentials.contains credentialId

/-! ## Concrete instantiations and fixtures used by witnesses

The crypto primitives are abstract parameters of the signature embedding;
witnesses instantiate them with concrete injective encodings (they stand in
for SHA-256 / HMAC / base64, whose only properties used by the claims are
determinism and injectivity on the relevant inputs). -/

/-- Prefix-free unary encoding of a byte list as characters:
each byte n becomes n copies of the character a followed by one b. -/
def natListToChars : List Nat → List Char
  | [] => []
  | n :: rest => List.replicate n 'a' ++ 'b' :: natListToChars rest

/-- Injective encoding of byte lists into strings, for witness primitives. -/
def encodeNats (bs : List Nat) : String :=
  String.mk (natListToChars bs)

/-- Injective encoding of strings into byte lists, standing in for UTF-8 in
witness primitives. -/
def utf8model (s : String) : List Nat :=
  s.data.map Char.toNat

/-- Concrete primitives used by witnesses: injective encodings in place of
the hash and encoding functions. -/
def testPrims : CryptoPrims where
  utf8 := utf8model
  sha256hex := encodeNats
  sha256digest := id
  hmacSha256digest := fun _ m => m
  b64encode := encodeNats

/-- The verifier configuration with the constructor defaults. -/
def defaultVerifierConfig : VerifierConfig := {}

/-- An empty cache with the constructor-default TTL of 300 seconds. -/
def emptyVerifierCache : CredentialCache VerificationResult :=
  { cache := [], defaultTtl := 300 }

/-- Discriminates a raised `CredentialNotFoundError`. -/
def isNotFoundErr (r : Except AgentIdErr VerificationResult) : Bool :=
  match r with
  | .error (.notFound _) => true
  | _ => false

/-- Whether one permission entry fires for a resource and action: a bare
string fires when it is the wildcard or equals the action exactly; a
structured permission fires when the resource glob-matches its pattern and
the action is listed or the actions contain the wildcard. An entry that
does not fire is skipped by `check_permission`. -/
def permissionFires (resource action : String) : PyPermission → Bool
  | .strPerm s => s == "*" || s == action
  | .structPerm p =>
      fnmatchB resource p.resource &&
        (p.actions.contains action || p.actions.contains "*")

/-- An empty cache of naturals with the default TTL, for witnesses. -/
def natCache300 : CredentialCache Nat :=
  { cache := [], defaultTtl := 300 }

/-- Unexpired cache entries used by the revocation scenario. -/
def entryOne : CacheEntry Nat := { value := 1, expiresAt := 1000, createdAt := 0 }

/-- Second fixture entry. -/
def entryTwo : CacheEntry Nat := { value := 2, expiresAt := 1000, createdAt := 0 }

/-- Third fixture entry. -/
def entryThree : CacheEntry Nat := { value := 3, expiresAt := 1000, createdAt := 0 }

/-- A shared cache holding the verify key, the key the revocation handler
deletes, and the key the credential handle actually writes. -/
def revokedCacheFixture : CredentialCache Nat :=
  { cache := [("verify:cred_X", entryOne), ("cred:cred_X", entryTwo),
      ("credential:cred_X", entryThree)],
    defaultTtl := 300 }

/-- A subscriber with no known revocations over the fixture cache. -/
def subscriberFixture : SubscriberState Nat :=
  { revokedCredentials := [], cache := revokedCacheFixture }

/-- A revocation event for `cred_X`. -/
def revocationEventX : RevocationEvent :=
  { credentialId := "cred_X", revokedAt := "2024-01-01T00:00:00Z" }

/-- Conditions whose transaction limit is present but zero. -/
def zeroLimitConditions : PermissionConditions := { maxTransactionAmount := some 0 }

/-- A permission matching `acct/*`-shaped resources, carrying the
zero-limit conditions. -/
def zeroLimitPermission : Permission :=
  { resource := "acct/*", actions := ["transfer"], conditions := some zeroLimitConditions }

/-- A context whose amount is 1. -/
def amountOneContext : PermContext := { amount := some 1 }

/-- A bare valid verification result. -/
def validResultFixture : VerificationResult := { valid := true }

/-- A successful remote response carrying the valid result. -/
def okResponseFixture : ApiResponse :=
  { statusCode := 200, body := some validResultFixture }

/-- One verification call against the fixture response. -/
def verifyCallFixture : VerifyCall :=
  { outcome := .response okResponseFixture, credentialId := "cred_1", now := 0 }

/-- A 404 response whose body does not parse as JSON. -/
def notFoundMalformedResponse : ApiResponse := { statusCode := 404 }

/-! ## Helper lemmas -/

theorem dictFind_dictSet_self {β : Type} (l : List (String × β)) (k : String) (v : β) :
    dictFind (dictSet l k v) k = some v := by
  induction l with
  | nil => simp [dictSet, dictFind]
  | cons hd tl ih =>
    obtain ⟨k2, v2⟩ := hd
    by_cases h : k2 = k
    · simp [dictSet, h, dictFind]
    · simp [dictSet, h, dictFind, ih]

theorem length_dictErase_of_find {β : Type} (l : List (String × β)) (k : String) (v : β)
    (h : dictFind l k = some v) : (dictErase l k).length = l.length - 1 := by
  induction l with
  | nil => simp [dictFind] at h
  | cons hd tl ih =>
    obtain ⟨k2, v2⟩ := hd
    by_cases hk : k2 = k
    · simp [dictErase, hk]
    · simp only [dictFind, if_neg hk] at h
      have h1 := ih h
      have h2 : 1 ≤ tl.length := by
        cases tl with
        | nil => simp [dictFind] at h
        | cons a b => simp
      simp only [dictErase, if_neg hk, List.length_cons]
      omega

theorem mem_dictSet {β : Type} {p : String × β} {l : List (String × β)} {k : String}
    {v : β} (h : p ∈ dictSet l k v) : p = (k, v) ∨ p ∈ l := by
  induction l with
  | nil =>
    simp only [dictSet, List.mem_singleton] at h
    exact Or.inl h
  | cons hd tl ih =>
    obtain ⟨k2, v2⟩ := hd
    by_cases hk : k2 = k
    · simp only [dictSet, if_pos hk, List.mem_cons] at h
      rcases h with h | h
      · exact Or.inl h
      · exact Or.inr (List.mem_cons_of_mem _ h)
    · simp only [dictSet, if_neg hk, List.mem_cons] at h
      rcases h with h | h
      · exact Or.inr (by simp [h])
      · rcases ih h with h2 | h2
        · exact Or.inl h2
        · exact Or.inr (List.mem_cons_of_mem _ h2)

theorem mem_dictErase {β : Type} {p : String × β} {l : List (String × β)} {k : String}
    (h : p ∈ dictErase l k) : p ∈ l := by
  induction l with
  | nil => simp [dictErase] at h
  | cons hd tl ih =>
    obtain ⟨k2, v2⟩ := hd
    by_cases hk : k2 = k
    · simp only [dictErase, if_pos hk] at h
      exact List.mem_cons_of_mem _ h
    · simp only [dictErase, if_neg hk, List.mem_cons] at h
      rcases h with h | h
      · simp [h]
      · exact List.mem_cons_of_mem _ (ih h)

/-! ## Claim C9 -/

/-- Claim C9 (confirmed): for every key, value and TTL `t > 0`, `set(k,v,t)`
followed immediately by `get(k)` returns `v`; once current time reaches the
entry expiry, `get(k)` returns `none` (never the stale value) and removes
the expired entry, so the resulting `size()` no longer counts it; and `set`
without an explicit TTL uses the constructor default TTL. -/
theorem claim9_cache_roundtrip (α : Type) (c : CredentialCache α) (k : String) (v : α)
    (t now : Int) (ht : 0 < t) :
    ((c.set k v (some t) now).get k now).1 = some v ∧
    (∀ now2, now + t ≤ now2 →
      ((c.set k v (some t) now).get k now2).1 = none ∧
      ((c.set k v (some t) now).get k now2).2.size = (c.set k v (some t) now).size - 1) ∧
    c.set k v none now = c.set k v (some c.defaultTtl) now := by
  have hfind :
      dictFind (dictSet c.cache k { value := v, expiresAt := now + t, createdAt := now }) k
        = some { value := v, expiresAt := now + t, createdAt := now } :=
    dictFind_dictSet_self _ _ _
  refine ⟨?_, fun now2 h2 => ?_, rfl⟩
  · have hexp : ({ value := v, expiresAt := now + t, createdAt := now } :
        CacheEntry α).isExpired now = false := by
      simp only [CacheEntry.isExpired, decide_eq_false_iff_not]
      omega
    simp [CredentialCache.set, CredentialCache.get, hfind, hexp]
  · have hexp : ({ value := v, expiresAt := now + t, createdAt := now } :
        CacheEntry α).isExpired now2 = true := by
      simp only [CacheEntry.isExpired, decide_eq_true_eq]
      omega
    refine ⟨?_, ?_⟩
    · simp [CredentialCache.set, CredentialCache.get, hfind, hexp]
    · simp [CredentialCache.set, CredentialCache.get, hfind, hexp, CredentialCache.size]
      exact length_dictErase_of_find _ _ _ hfind

/-- Witness for C9 at a concrete cache, key, value and TTL. -/
theorem claim9_witness :
    ((natCache300.set "k" 1 (some 5) 0).get "k" 0).1 = some 1 ∧
    ((natCache300.set "k" 1 (some 5) 0).get "k" 5).1 = none ∧
    ((natCache300.set "k" 1 (some 5) 0).get "k" 5).2.size =
      (natCache300.set "k" 1 (some 5) 0).size - 1 ∧
    natCache300.set "k" 1 none 0 = natCache300.set "k" 1 (some natCache300.defaultTtl) 0 :=
  have h := claim9_cache_roundtrip Nat natCache300 "k" 1 5 0 (by decide)
  ⟨h.1, (h.2.1 5 (by decide)).1, (h.2.1 5 (by decide)).2, h.2.2⟩

/-! ## Claim C8 -/

/-- Claim C8 (code bug): consuming a revocation event for `cred_X` adds it
to the locally held revoked-set — afterwards `is_revoked("cred_X")` is true
while `is_revoked("cred_Y")` for a never-revoked id is false — and evicts
the cache keys `verify:cred_X` and `cred:cred_X`. But the Credential
Handle stores its payload under `AgentCredential.cache_key`, which is
`credential:cred_X`, and that key is not the one the handler deletes: the
cached payload survives the revocation, contradicting the claim that every
cached entry keyed by the credential is evicted. -/
theorem claim8_revocation_eviction_gap :
    isRevoked (handleRevocationEvent subscriberFixture revocationEventX) "cred_X" = true ∧
    isRevoked (handleRevocationEvent subscriberFixture revocationEventX) "cred_Y" = false ∧
    dictFind (handleRevocationEvent subscriberFixture revocationEventX).cache.cache
      "verify:cred_X" = none ∧
    dictFind (handleRevocationEvent subscriberFixture revocationEventX).cache.cache
      "cred:cred_X" = none ∧
    dictFind subscriberFixture.cache.cache (agentCredentialCacheKey "cred_X") =
      some entryThree ∧
    dictFind (handleRevocationEvent subscriberFixture revocationEventX).cache.cache
      (agentCredentialCacheKey "cred_X") = some entryThree := by
  decide

/-! ## Claim C5 -/

/-- Claim C5 (confirmed): `check_permission` iterates the permission list
in the order given and returns on the first grant; a bare string grants
iff it equals the wildcard or the action exactly, with the resource playing
no role; a structured permission is skipped (the iteration moves on)
unless the resource glob-matches its pattern and the action is allowed;
and a list in which no entry fires yields
`{granted: false, reason: "No permission for <action> on <resource>"}`. -/
theorem claim5_check_permission_first_match :
    (∀ s rest resource action context,
      checkPermission (.strPerm s :: rest) resource action context =
        if s = "*" ∨ s = action then { granted := true }
        else checkPermission rest resource action context) ∧
    (∀ p rest resource action context,
      permissionFires resource action (.structPerm p) = false →
      checkPermission (.structPerm p :: rest) resource action context =
        checkPermission rest resource action context) ∧
    (∀ permissions resource action context,
      (∀ q ∈ permissions, permissionFires resource action q = false) →
      checkPermission permissions resource action context =
        { granted := false,
          reason := some s!"No permission for {action} on {resource}" }) := by
  have hskip : ∀ p rest resource action context,
      permissionFires resource action (.structPerm p) = false →
      checkPermission (.structPerm p :: rest) resource action context =
        checkPermission rest resource action context := by
    intro p rest resource action context h
    simp only [permissionFires, Bool.and_eq_false_iff, Bool.or_eq_false_iff] at h
    rcases h with h | ⟨h1, h2⟩
    · simp [checkPermission, h]
    · by_cases hf : fnmatchB resource p.resource
      · have ha : action ∉ p.actions := by simpa using h1
        have hw : "*" ∉ p.actions := by simpa using h2
        simp [checkPermission, hf, ha, hw]
      · simp [checkPermission, hf]
  refine ⟨fun s rest resource action context => rfl, hskip, ?_⟩
  intro permissions resource action context hall
  induction permissions with
  | nil => rfl
  | cons q rest ih =>
    have hq : permissionFires resource action q = false := hall q (by simp)
    have hrest := ih fun q2 hq2 => hall q2 (List.mem_cons_of_mem _ hq2)
    cases q with
    | strPerm s =>
      simp only [permissionFires, Bool.or_eq_false_iff, beq_eq_false_iff_ne] at hq
      simp only [checkPermission, if_neg (not_or.mpr hq)]
      exact hrest
    | structPerm p =>
      rw [hskip p rest resource action context hq]
      exact hrest

/-- Witness for C5: a bare string grants its action, a non-matching
structured permission is skipped, and an exhausted list denies with the
no-permission reason. -/
theorem claim5_witness :
    checkPermission [.strPerm "read"] "r" "read" none = { granted := true } ∧
    checkPermission [.structPerm zeroLimitPermission] "zzz" "transfer" none =
      checkPermission [] "zzz" "transfer" none ∧
    checkPermission [.strPerm "write"] "r" "read" none =
      { granted := false, reason := some "No permission for read on r" } := by
  refine ⟨?_, ?_, ?_⟩
  · have h := claim5_check_permission_first_match.1 "read" [] "r" "read" none
    simpa using h
  · exact claim5_check_permission_first_match.2.1 zeroLimitPermission [] "zzz" "transfer"
      none (by decide)
  · exact claim5_check_permission_first_match.2.2 [.strPerm "write"] "r" "read" none
      (by decide)

/-! ## Claim C6 -/

/-- Counterexample to C6 as stated: a matching structured permission whose
conditions carry `max_transaction_amount = 0` and a supplied context with
amount 1. The claim demands a denial quoting amount and limit, since
`1 > 0`; the code grants, because `if perm.conditions.max_transaction_amount:`
treats the zero limit as falsy and skips the check entirely. (The same
truthiness guard makes an empty `allowed_regions` list and an empty
context region string skip the region check.) -/
theorem claim6_counterexample :
    fnmatchB "acct/1" zeroLimitPermission.resource = true ∧
    zeroLimitPermission.actions.contains "transfer" = true ∧
    zeroLimitPermission.conditions = some zeroLimitConditions ∧
    zeroLimitConditions.maxTransactionAmount = some 0 ∧
    amountOneContext.amount = some 1 ∧ (1 : Int) > 0 ∧
    checkPermission [.structPerm zeroLimitPermission] "acct/1" "transfer"
      (some amountOneContext) = { granted := true } := by
  decide

/-- Claim C6 as amended: for a structured permission that matches resource
and action and carries conditions, with a context supplied, the evaluator
denies with a reason quoting the amount and the limit whenever the limit
is present and nonzero, the context amount is present and nonzero, and the
amount exceeds the limit; it denies with a reason naming the region
whenever the amount check did not fire, `allowed_regions` is present and
nonempty, and the context region is present, nonempty and not in the list;
a matching permission with no conditions, or with no supplied context, or
whose enforced checks pass, is granted; and the evaluation depends only on
the two enforced condition fields, so the unenforced kinds (time window,
day set, rate limits, record/field/spend limits, approval flags) never
cause a denial. -/
theorem claim6_conditions_amended :
    (∀ p rest resource action conds ctx,
      fnmatchB resource p.resource = true →
      (p.actions.contains action = true ∨ p.actions.contains "*" = true) →
      p.conditions = some conds →
      checkPermission (.structPerm p :: rest) resource action (some ctx) =
        (match checkConditions conds ctx with
         | some denial => denial
         | none => { granted := true })) ∧
    (∀ p rest resource action context,
      fnmatchB resource p.resource = true →
      (p.actions.contains action = true ∨ p.actions.contains "*" = true) →
      p.conditions = none →
      checkPermission (.structPerm p :: rest) resource action context =
        { granted := true }) ∧
    (∀ p rest resource action,
      fnmatchB resource p.resource = true →
      (p.actions.contains action = true ∨ p.actions.contains "*" = true) →
      checkPermission (.structPerm p :: rest) resource action none =
        { granted := true }) ∧
    (∀ conds ctx limit amount,
      conds.maxTransactionAmount = some limit → limit ≠ 0 →
      ctx.amount = some amount → amount ≠ 0 → amount > limit →
      checkConditions conds ctx =
        some { granted := false,
               reason := some s!"Amount {amount} exceeds limit {limit}" }) ∧
    (∀ conds ctx regions region,
      amountCheck conds ctx = none →
      conds.allowedRegions = some regions → regions ≠ [] →
      ctx.region = some region → region ≠ "" → region ∉ regions →
      checkConditions conds ctx =
        some { granted := false, reason := some s!"Region {region} not allowed" }) ∧
    (∀ conds ctx, amountCheck conds ctx = none → regionCheck conds ctx = none →
      checkConditions conds ctx = none) ∧
    (∀ conds conds2 ctx,
      conds2.maxTransactionAmount = conds.maxTransactionAmount →
      conds2.allowedRegions = conds.allowedRegions →
      checkConditions conds2 ctx = checkConditions conds ctx) := by
  have hmatch : ∀ (p : Permission) (resource action : String),
      fnmatchB resource p.resource = true →
      (p.actions.contains action = true ∨ p.actions.contains "*" = true) →
      ((!(p.actions.contains action)) && (!(p.actions.contains "*"))) = false := by
    intro p resource action h1 h2
    rcases h2 with h2 | h2
    · rw [h2]; simp
    · rw [h2]; simp
  have hhead : ∀ (p : Permission) rest resource action context,
      fnmatchB resource p.resource = true →
      (p.actions.contains action = true ∨ p.actions.contains "*" = true) →
      checkPermission (.structPerm p :: rest) resource action context =
        (match p.conditions, context with
         | some conds, some ctx =>
             (match checkConditions conds ctx with
              | some denial => denial
              | none => { granted := true })
         | _, _ => { granted := true }) := by
    intro p rest resource action context h1 h2
    have e1 : (!fnmatchB resource p.resource) = false := by rw [h1]; rfl
    have e2 := hmatch p resource action h1 h2
    simp only [checkPermission, e1, e2, Bool.false_eq_true, if_false]
  refine ⟨?_, ?_, ?_, ?_, ?_, ?_, ?_⟩
  · intro p rest resource action conds ctx h1 h2 h3
    rw [hhead p rest resource action (some ctx) h1 h2, h3]
  · intro p rest resource action context h1 h2 h3
    rw [hhead p rest resource action context h1 h2, h3]
  · intro p rest resource action h1 h2
    rw [hhead p rest resource action none h1 h2]
    cases p.conditions <;> rfl
  · intro conds ctx limit amount h1 h2 h3 h4 h5
    simp [checkConditions, amountCheck, h1, h2, h3, h4, h5]
  · intro conds ctx regions region h0 h1 h2 h3 h4 h5
    simp [checkConditions, h0, regionCheck, h1, h2, h3, h4, h5]
  · intro conds ctx h1 h2
    simp [checkConditions, h1, h2]
  · intro conds conds2 ctx h1 h2
    simp only [checkConditions, amountCheck, regionCheck, h1, h2]

/-- Witness for the amended C6: an over-limit amount denies quoting both
numbers, a disallowed region denies naming it, and a matching permission
with no conditions is granted even with exotic unenforced fields. -/
theorem claim6_witness :
    checkConditions { maxTransactionAmount := some 10000 } { amount := some 50000 } =
      some { granted := false, reason := some "Amount 50000 exceeds limit 10000" } ∧
    checkConditions { allowedRegions := some ["EU"] } { region := some "US" } =
      some { granted := false, reason := some "Region US not allowed" } ∧
    checkPermission [.structPerm { resource := "acct/*", actions := ["transfer"] }]
      "acct/1" "transfer" (some { amount := some 50000 }) = { granted := true } ∧
    checkConditions { validDays := some ["mon"], maxRequestsPerMinute := some 1 }
      { amount := some 50000, region := some "US" } = none := by
  refine ⟨?_, ?_, ?_, ?_⟩
  · exact claim6_conditions_amended.2.2.2.1 _ _ 10000 50000 rfl (by decide) rfl
      (by decide) (by decide)
  · exact claim6_conditions_amended.2.2.2.2.1 _ _ ["EU"] "US" (by decide) rfl
      (by decide) rfl (by decide) (by decide)
  · exact claim6_conditions_amended.2.1 _ [] "acct/1" "transfer" _ (by decide)
      (Or.inl (by decide)) rfl
  · exact claim6_conditions_amended.2.2.2.2.2.1 _ _ (by decide) (by decide)

/-! ## Claim C1 -/

/-- Counterexample to C1 as stated: a headers map in which the
credential-id header IS present (with an empty value), the timestamp
parses to an in-window integer and the signature header is present. The
claim says that with the credential header present and all signature
fast-fail checks passing, verification proceeds past the local checks; the
code instead returns `MISSING_CREDENTIAL`, because `if not credential_id:`
treats the present-but-empty header value as missing. -/
theorem claim1_counterexample :
    extractCredentialInfo
        [("x-agentid-credential", ""), ("x-agentid-timestamp", "100"),
         ("x-agentid-signature", "sig")] =
      (some "", some "100", none, some "sig") ∧
    pythonInt "100" = some 100 ∧ abs ((100 : Int) - 100) ≤ 300 ∧
    verifyRequestStep defaultVerifierConfig
        [("x-agentid-credential", ""), ("x-agentid-timestamp", "100"),
         ("x-agentid-signature", "sig")] 100 =
      .localResult missingCredentialResult := by
  decide

/-- Claim C1 as amended: both verify_request variants behave identically,
and the local fast-fail checks run in this order — credential header
absent OR EMPTY gives `MISSING_CREDENTIAL`; otherwise with signature
verification enabled, an absent or empty timestamp or signature header
gives `MISSING_SIGNATURE`; a non-empty timestamp that does not parse as a
Python integer gives `INVALID_TIMESTAMP`; a parsed timestamp with
`|now - ts| > signature_max_age` gives `SIGNATURE_EXPIRED`. All four
results carry `valid = false` and the stated error codes, and each is a
`localResult`, the constructor that never reaches `verify_credential`
(the only networked continuation). -/
theorem claim1_local_fast_fail_amended :
    (∀ cfg headers now,
      verifyRequestAsyncStep cfg headers now = verifyRequestStep cfg headers now) ∧
    (∀ cfg headers now credentialId timestamp nonce signature,
      extractCredentialInfo headers = (credentialId, timestamp, nonce, signature) →
      (pyTruthy credentialId = false →
        verifyRequestStep cfg headers now = .localResult missingCredentialResult) ∧
      (pyTruthy credentialId = true → cfg.verifySignature = true →
        (pyTruthy timestamp = false ∨ pyTruthy signature = false) →
        verifyRequestStep cfg headers now = .localResult missingSignatureResult) ∧
      (pyTruthy credentialId = true → cfg.verifySignature = true →
        pyTruthy timestamp = true → pyTruthy signature = true →
        pythonInt (timestamp.getD "") = none →
        verifyRequestStep cfg headers now = .localResult invalidTimestampResult) ∧
      (∀ ts, pyTruthy credentialId = true → cfg.verifySignature = true →
        pyTruthy timestamp = true → pyTruthy signature = true →
        pythonInt (timestamp.getD "") = some ts →
        abs (now - ts) > cfg.signatureMaxAge →
        verifyRequestStep cfg headers now = .localResult signatureExpiredResult)) ∧
    (missingCredentialResult.valid = false ∧ missingSignatureResult.valid = false ∧
      invalidTimestampResult.valid = false ∧ signatureExpiredResult.valid = false) ∧
    (missingCredentialResult.errorCode = some "MISSING_CREDENTIAL" ∧
      missingSignatureResult.errorCode = some "MISSING_SIGNATURE" ∧
      invalidTimestampResult.errorCode = some "INVALID_TIMESTAMP" ∧
      signatureExpiredResult.errorCode = some "SIGNATURE_EXPIRED") := by
  refine ⟨fun cfg headers now => rfl, ?_, by decide, by decide⟩
  intro cfg headers now credentialId timestamp nonce signature hext
  refine ⟨?_, ?_, ?_, ?_⟩
  · intro h
    simp [verifyRequestStep, hext, h]
  · intro h1 h2 h3
    rcases h3 with h3 | h3 <;> simp [verifyRequestStep, hext, h1, h2, h3]
  · intro h1 h2 h3 h4 h5
    simp [verifyRequestStep, hext, h1, h2, h3, h4, h5]
  · intro ts h1 h2 h3 h4 h5 h6
    simp [verifyRequestStep, hext, h1, h2, h3, h4, h5, h6]

/-- Witness for the amended C1, one headers map per fast-fail branch. -/
theorem claim1_witness :
    verifyRequestAsyncStep defaultVerifierConfig [] 0 =
      verifyRequestStep defaultVerifierConfig [] 0 ∧
    verifyRequestStep defaultVerifierConfig [] 0 =
      .localResult missingCredentialResult ∧
    verifyRequestStep defaultVerifierConfig [("X-AgentID-Credential", "c")] 0 =
      .localResult missingSignatureResult ∧
    verifyRequestStep defaultVerifierConfig
        [("x-agentid-credential", "c"), ("x-agentid-timestamp", "zz"),
         ("x-agentid-signature", "s")] 0 =
      .localResult invalidTimestampResult ∧
    verifyRequestStep defaultVerifierConfig
        [("x-agentid-credential", "c"), ("x-agentid-timestamp", "1000"),
         ("x-agentid-signature", "s")] 0 =
      .localResult signatureExpiredResult := by
  refine ⟨claim1_local_fast_fail_amended.1 _ _ _, ?_, ?_, ?_, ?_⟩
  · exact (claim1_local_fast_fail_amended.2.1 defaultVerifierConfig [] 0
      none none none none rfl).1 (by decide)
  · exact (claim1_local_fast_fail_amended.2.1 defaultVerifierConfig
      [("X-AgentID-Credential", "c")] 0 (some "c") none none none (by decide)).2.1
      (by decide) rfl (Or.inl (by decide))
  · exact (claim1_local_fast_fail_amended.2.1 defaultVerifierConfig
      [("x-agentid-credential", "c"), ("x-agentid-timestamp", "zz"),
       ("x-agentid-signature", "s")] 0 (some "c") (some "zz") none (some "s")
      (by decide)).2.2.1 (by decide) rfl (by decide) (by decide) (by decide)
  · exact (claim1_local_fast_fail_amended.2.1 defaultVerifierConfig
      [("x-agentid-credential", "c"), ("x-agentid-timestamp", "1000"),
       ("x-agentid-signature", "s")] 0 (some "c") (some "1000") none (some "s")
      (by decide)).2.2.2 1000 (by decide) rfl (by decide) (by decide) (by decide)
      (by decide)

/-! ## Claim C2 -/

/-- Claim C2 (confirmed): for any two header maps that agree on the
extracted credential-id, timestamp and nonce and whose signature headers
are both present and non-empty, the outcome of `verify_request` (sync and
async) is identical: the local phase checks only presence of the signature
header, and the continuation `verify_credential(credential_id)` receives
only the credential id, so the result does not depend on the signature
header content. (`verify_request_signature` does not occur in the
embedding of this path at all, mirroring that the source never calls it
from `verify_request`.) -/
theorem claim2_signature_content_independence
    (cfg : VerifierConfig) (now : Int) (hA hB : List (String × String))
    (c t n : Option String) (s1 s2 : String)
    (hextA : extractCredentialInfo hA = (c, t, n, some s1))
    (hextB : extractCredentialInfo hB = (c, t, n, some s2))
    (hs1 : s1 ≠ "") (hs2 : s2 ≠ "") :
    verifyRequestStep cfg hA now = verifyRequestStep cfg hB now ∧
    verifyRequestAsyncStep cfg hA now = verifyRequestAsyncStep cfg hB now := by
  have e1 : pyTruthy (some s1) = true := by simp [pyTruthy, hs1]
  have e2 : pyTruthy (some s2) = true := by simp [pyTruthy, hs2]
  constructor
  · simp only [verifyRequestStep, hextA, hextB, e1, e2]
  · simp only [verifyRequestAsyncStep, hextA, hextB, e1, e2]

/-- Witness for C2: two header maps differing only in the signature value
produce the same verification step. -/
theorem claim2_witness :
    verifyRequestStep defaultVerifierConfig
        [("x-agentid-credential", "c"), ("x-agentid-timestamp", "0"),
         ("x-agentid-nonce", "n"), ("x-agentid-signature", "sigA")] 0 =
      verifyRequestStep defaultVerifierConfig
        [("x-agentid-credential", "c"), ("x-agentid-timestamp", "0"),
         ("x-agentid-nonce", "n"), ("x-agentid-signature", "sigB")] 0 ∧
    verifyRequestAsyncStep defaultVerifierConfig
        [("x-agentid-credential", "c"), ("x-agentid-timestamp", "0"),
         ("x-agentid-nonce", "n"), ("x-agentid-signature", "sigA")] 0 =
      verifyRequestAsyncStep defaultVerifierConfig
        [("x-agentid-credential", "c"), ("x-agentid-timestamp", "0"),
         ("x-agentid-nonce", "n"), ("x-agentid-signature", "sigB")] 0 :=
  claim2_signature_content_independence defaultVerifierConfig 0 _ _
    (some "c") (some "0") (some "n") "sigA" "sigB"
    (by decide) (by decide) (by decide) (by decide)

/-! ## Claim C4 -/

/-- Claim C4 (confirmed): `verify_request_signature` raises `SignatureError`
exactly when `|now - timestamp| > max_age_seconds`, whatever the supplied
signature; otherwise it returns the boolean comparison of the supplied
signature against the one recomputed by `generate_request_signature` from
method, url, body, timestamp, credential id and secret. -/
theorem claim4_verify_signature_staleness
    (p : CryptoPrims) (signature method url : String) (body : PyBody)
    (timestamp : Int) (credentialId secret : String)
    (maxAgeSeconds currentTime : Int) :
    (abs (currentTime - timestamp) > maxAgeSeconds ↔
      verifyRequestSignature p signature method url body timestamp credentialId
        secret maxAgeSeconds currentTime =
        .error s!"Request timestamp too old (max age: {maxAgeSeconds}s)") ∧
    (abs (currentTime - timestamp) ≤ maxAgeSeconds →
      verifyRequestSignature p signature method url body timestamp credentialId
        secret maxAgeSeconds currentTime =
        .ok (signature == generateRequestSignature p method url body timestamp
          credentialId (some secret))) := by
  constructor
  · constructor
    · intro h
      simp [verifyRequestSignature, h]
    · intro h
      by_cases hc : abs (currentTime - timestamp) > maxAgeSeconds
      · exact hc
      · simp [verifyRequestSignature, hc] at h
  · intro h
    simp [verifyRequestSignature, not_lt.mpr h]

/-- Witness for C4: a stale timestamp raises with the staleness message; a
fresh one returns the comparison against the recomputed signature. -/
theorem claim4_witness :
    verifyRequestSignature testPrims "sig" "GET" "u" .noneB 0 "c" "sec" 300 1000 =
      .error "Request timestamp too old (max age: 300s)" ∧
    verifyRequestSignature testPrims "sig" "GET" "u" .noneB 0 "c" "sec" 300 5 =
      .ok (("sig" : String) ==
        generateRequestSignature testPrims "GET" "u" .noneB 0 "c" (some "sec")) :=
  ⟨(claim4_verify_signature_staleness testPrims "sig" "GET" "u" .noneB 0 "c" "sec"
      300 1000).1.mp (by decide),
   (claim4_verify_signature_staleness testPrims "sig" "GET" "u" .noneB 0 "c" "sec"
      300 5).2 (by decide)⟩

/-! ## Claim C3: injectivity of the witness encodings, and the round trip -/

theorem natListToChars_head_inj (n m : Nat) (x y : List Char)
    (h : List.replicate n 'a' ++ 'b' :: x = List.replicate m 'a' ++ 'b' :: y) :
    n = m ∧ x = y := by
  induction n generalizing m with
  | zero =>
    cases m with
    | zero => simpa using h
    | succ m2 =>
      rw [List.replicate_succ] at h
      simp only [List.replicate, List.nil_append, List.cons_append,
        List.cons.injEq] at h
      exact absurd h.1 (by decide)
  | succ n2 ih =>
    cases m with
    | zero =>
      rw [List.replicate_succ] at h
      simp only [List.replicate, List.nil_append, List.cons_append,
        List.cons.injEq] at h
      exact absurd h.1 (by decide)
    | succ m2 =>
      rw [List.replicate_succ, List.replicate_succ] at h
      simp only [List.cons_append, List.cons.injEq, true_and] at h
      obtain ⟨h3, h4⟩ := ih m2 h
      exact ⟨by omega, h4⟩

theorem natListToChars_injective : Function.Injective natListToChars := by
  intro l1 l2 h
  induction l1 generalizing l2 with
  | nil =>
    cases l2 with
    | nil => rfl
    | cons m t =>
      have hl := congrArg List.length h
      simp [natListToChars] at hl
      omega
  | cons n t ih =>
    cases l2 with
    | nil =>
      have hl := congrArg List.length h
      simp [natListToChars] at hl
    | cons m t2 =>
      simp only [natListToChars] at h
      obtain ⟨h1, h2⟩ := natListToChars_head_inj n m _ _ h
      rw [h1, ih h2]

theorem encodeNats_injective : Function.Injective encodeNats := by
  intro l1 l2 h
  exact natListToChars_injective (congrArg String.data h)

theorem char_toNat_injective : Function.Injective Char.toNat := by
  intro c1 c2 h
  have := congrArg Char.ofNat h
  rwa [Char.ofNat_toNat, Char.ofNat_toNat] at this

theorem utf8model_injective : Function.Injective utf8model := by
  intro s1 s2 h
  exact String.ext (List.map_injective_iff.mpr char_toNat_injective h)

theorem string_append_cancel_left (a x y : String) (h : a ++ x = a ++ y) : x = y := by
  have hd := congrArg String.data h
  rw [String.data_append a x, String.data_append a y] at hd
  exact String.ext (List.append_cancel_left hd)

/-- Claim C3 (confirmed): the four headers minted by
`RequestSigner.sign_request` are accepted by `verify_request_signature`
for the same method, url, body and secret, at the timestamp carried in
the headers, whenever the verification time is within the freshness
window; and — for primitives whose hashing and encoding are injective, as
the real SHA-256/HMAC/base64 are on these inputs — replacing a non-empty
byte body by any different non-empty byte body between signing and
verification makes `verify_request_signature` return false. -/
theorem claim3_sign_verify_roundtrip :
    (∀ (p : CryptoPrims) (credentialId secret nonce method url : String)
        (body : PyBody) (ts now2 maxAge : Int),
      abs (now2 - ts) ≤ maxAge →
      dictFind (signRequest p credentialId (some secret) ts nonce method url body)
          "X-AgentID-Credential" = some credentialId ∧
      dictFind (signRequest p credentialId (some secret) ts nonce method url body)
          "X-AgentID-Timestamp" = some (toString ts) ∧
      dictFind (signRequest p credentialId (some secret) ts nonce method url body)
          "X-AgentID-Nonce" = some nonce ∧
      dictFind (signRequest p credentialId (some secret) ts nonce method url body)
          "X-AgentID-Signature" =
        some (generateRequestSignature p method url body ts credentialId
          (some secret)) ∧
      verifyRequestSignature p
          (generateRequestSignature p method url body ts credentialId (some secret))
          method url body ts credentialId secret maxAge now2 = .ok true) ∧
    (∀ (p : CryptoPrims),
      Function.Injective p.sha256hex →
      Function.Injective p.utf8 →
      (∀ key, Function.Injective (fun m => p.b64encode (p.hmacSha256digest key m))) →
      Function.Injective (fun m => p.b64encode (p.sha256digest m)) →
      ∀ (credentialId secret method url : String) (bs bs2 : List Nat)
        (ts now2 maxAge : Int),
        bs ≠ [] → bs2 ≠ [] → bs ≠ bs2 → abs (now2 - ts) ≤ maxAge →
        verifyRequestSignature p
            (generateRequestSignature p method url (.bytesB bs) ts credentialId
              (some secret))
            method url (.bytesB bs2) ts credentialId secret maxAge now2 =
          .ok false) := by
  constructor
  · intro p credentialId secret nonce method url body ts now2 maxAge hfresh
    refine ⟨?_, ?_, ?_, ?_, ?_⟩
    · simp [signRequest, dictFind]
    · simp [signRequest, dictFind]
    · simp [signRequest, dictFind]
    · simp [signRequest, dictFind]
    · simp [verifyRequestSignature, not_lt.mpr hfresh]
  · intro p hhex hutf hhmac hsha credentialId secret method url bs bs2 ts now2
      maxAge hbs hbs2 hne hfresh
    have hhashne : p.sha256hex bs ≠ p.sha256hex bs2 := fun hc => hne (hhex hc)
    have hssne : signingString method url ts credentialId (bodyHash p (.bytesB bs)) ≠
        signingString method url ts credentialId (bodyHash p (.bytesB bs2)) := by
      simp only [bodyHash, if_neg hbs, if_neg hbs2, signingString]
      intro hc
      exact hhashne (string_append_cancel_left _ _ _ hc)
    have hgen : generateRequestSignature p method url (.bytesB bs) ts credentialId
        (some secret) ≠
        generateRequestSignature p method url (.bytesB bs2) ts credentialId
          (some secret) := by
      simp only [generateRequestSignature]
      by_cases hsec : secret = ""
      · simp only [if_pos hsec]
        intro hc
        exact hssne (hutf (hsha hc))
      · simp only [if_neg hsec]
        intro hc
        exact hssne (hutf (hhmac (p.utf8 secret) hc))
    have hlt := not_lt.mpr hfresh
    simp only [verifyRequestSignature, gt_iff_lt, hlt, if_false, Except.ok.injEq]
    exact beq_eq_false_iff_ne.mpr hgen

/-- Witness for C3 at the concrete injective primitives: round trip
accepts, and a one-byte body change flips verification to false. -/
theorem claim3_witness :
    dictFind (signRequest testPrims "c" (some "k") 0 "n" "GET" "u" (.bytesB [1]))
        "X-AgentID-Signature" =
      some (generateRequestSignature testPrims "GET" "u" (.bytesB [1]) 0 "c"
        (some "k")) ∧
    verifyRequestSignature testPrims
        (generateRequestSignature testPrims "GET" "u" (.bytesB [1]) 0 "c" (some "k"))
        "GET" "u" (.bytesB [1]) 0 "c" "k" 300 5 = .ok true ∧
    verifyRequestSignature testPrims
        (generateRequestSignature testPrims "GET" "u" (.bytesB [1]) 0 "c" (some "k"))
        "GET" "u" (.bytesB [2]) 0 "c" "k" 300 5 = .ok false :=
  have hacc := claim3_sign_verify_roundtrip.1 testPrims "c" "k" "n" "GET" "u"
    (.bytesB [1]) 0 5 300 (by decide)
  ⟨hacc.2.2.2.1, hacc.2.2.2.2,
   claim3_sign_verify_roundtrip.2 testPrims encodeNats_injective utf8model_injective
     (fun _ => encodeNats_injective) encodeNats_injective "c" "k" "GET" "u"
     [1] [2] 0 5 300 (by decide) (by decide) (by decide) (by decide)⟩

/-! ## Claim C7 -/

theorem get_cache_sub {α : Type} (c : CredentialCache α) (key : String) (now : Int)
    {p : String × CacheEntry α} (hp : p ∈ ((c.get key now).2).cache) : p ∈ c.cache := by
  unfold CredentialCache.get at hp
  cases hf : dictFind c.cache key with
  | none => simp only [hf] at hp; exact hp
  | some e =>
    simp only [hf] at hp
    by_cases he : e.isExpired now = true
    · simp only [if_pos he] at hp
      exact mem_dictErase hp
    · simp only [if_neg he] at hp
      exact hp

theorem verifyCacheInv_step (cfg : VerifierConfig) (outcome : FetchOutcome)
    (credentialId : String) (useCache : Bool) (now : Int)
    (c : CredentialCache VerificationResult)
    (h : VerifyCacheInv cfg.cacheTtl c) :
    VerifyCacheInv cfg.cacheTtl
      (verifyCredentialStep cfg outcome credentialId useCache now c).2 := by
  have h1 : VerifyCacheInv cfg.cacheTtl
      ((if useCache then c.get ("verify:" ++ credentialId) now else (none, c)).2) := by
    intro p hp hpre
    refine h p ?_ hpre
    by_cases hu : useCache
    · rw [if_pos hu] at hp
      exact get_cache_sub c _ now hp
    · rw [if_neg hu] at hp
      exact hp
  simp only [verifyCredentialStep]
  split
  next r cache1 heq =>
    have h2 := congrArg Prod.snd heq
    intro p hp hpre
    exact h1 p (by rw [h2]; exact hp) hpre
  next cache1 heq =>
    have h2 := congrArg Prod.snd heq
    have hc1 : VerifyCacheInv cfg.cacheTtl cache1 := by
      intro p hp hpre
      exact h1 p (by rw [h2]; exact hp) hpre
    cases outcome with
    | networkFailure => exact hc1
    | response resp =>
      dsimp only
      cases hr : handleResponse resp with
      | error e => exact hc1
      | ok result =>
        dsimp only
        by_cases hv : (useCache && result.valid) = true
        · rw [if_pos hv]
          intro p hp hpre
          simp only [CredentialCache.set] at hp
          rcases mem_dictSet hp with hpe | hpm
          · subst hpe
            refine ⟨?_, rfl⟩
            exact (Bool.and_eq_true _ _ |>.mp hv).2
          · exact hc1 p hpm hpre
        · rw [if_neg hv]
          exact hc1

/-- Claim C7 (confirmed): starting from any cache satisfying the verifier
cache invariant (in particular the empty cache), any sequence of
`verify_credential` / `verify_credential_async` calls preserves it: every
entry stored under a `verify:` key holds a result with `valid = true` and
was written with the verifier TTL (`expires_at = created_at + cache_ttl`);
an invalid result is never written to the cache. -/
theorem claim7_verify_cache_invariant (cfg : VerifierConfig) (calls : List VerifyCall)
    (c0 : CredentialCache VerificationResult)
    (h0 : VerifyCacheInv cfg.cacheTtl c0) :
    VerifyCacheInv cfg.cacheTtl (runVerifyCalls cfg calls c0) := by
  induction calls generalizing c0 with
  | nil => exact h0
  | cons call rest ih =>
    have hAsync : verifyCredentialAsyncStep = verifyCredentialStep := rfl
    have hstep : VerifyCacheInv cfg.cacheTtl
        (if call.isAsync then
          (verifyCredentialAsyncStep cfg call.outcome call.credentialId
            call.useCache call.now c0).2
        else
          (verifyCredentialStep cfg call.outcome call.credentialId
            call.useCache call.now c0).2) := by
      by_cases ha : call.isAsync
      · rw [if_pos ha, hAsync]
        exact verifyCacheInv_step cfg call.outcome call.credentialId call.useCache
          call.now c0 h0
      · rw [if_neg ha]
        exact verifyCacheInv_step cfg call.outcome call.credentialId call.useCache
          call.now c0 h0
    simpa only [runVerifyCalls, List.foldl_cons] using ih _ hstep

/-- Witness for C7: one successful call from the empty cache. -/
theorem claim7_witness :
    VerifyCacheInv defaultVerifierConfig.cacheTtl
      (runVerifyCalls defaultVerifierConfig [verifyCallFixture] emptyVerifierCache) :=
  claim7_verify_cache_invariant defaultVerifierConfig [verifyCallFixture]
    emptyVerifierCache
    (by intro p hp hpre; simp [emptyVerifierCache] at hp)

/-! ## Claim C10 -/

theorem handleVerifyResponse_ok_body (cid : String) (resp : ApiResponse)
    (result : VerificationResult)
    (h : handleVerifyResponse cid resp = .ok result) : resp.body = some result := by
  simp only [handleVerifyResponse] at h
  by_cases h429 : (resp.statusCode == 429) = true
  · rw [if_pos h429] at h
    cases hp : parseRetryAfter resp.retryAfter with
    | ok ra => rw [hp] at h; simp at h
    | error e => rw [hp] at h; simp at h
  · rw [if_neg h429] at h
    by_cases h401 : (resp.statusCode == 401) = true
    · rw [if_pos h401] at h
      simp at h
    · rw [if_neg h401] at h
      cases hb : resp.body with
      | none => rw [hb] at h; simp at h
      | some data =>
        simp only [hb] at h
        by_cases h404 : (resp.statusCode == 404 ||
            (data.errorCode == some "CREDENTIAL_NOT_FOUND")) = true
        · rw [if_pos h404] at h; simp at h
        · rw [if_neg h404] at h
          by_cases hsucc : (!isSuccessStatus resp.statusCode) = true
          · rw [if_pos hsucc] at h; simp at h
          · rw [if_neg hsucc] at h
            obtain rfl : data = result := by simpa using h
            rfl

theorem updateFromResult_ok (result : VerificationResult)
    (copt : Option CredentialPayload) (h : updateFromResult result = .ok copt) :
    result.valid = true ∧ result.credential = copt := by
  simp only [updateFromResult] at h
  by_cases hv : result.valid
  · rw [hv] at h
    simp only [Bool.not_true, Bool.false_eq_true, if_false] at h
    exact ⟨hv, by simpa using h⟩
  · rw [Bool.eq_false_iff.mpr hv] at h
    simp only [Bool.not_false, if_true] at h
    split at h <;> simp at h

/-- Counterexample to C10 as stated: an HTTP 404 whose body does not parse
as JSON. The claim says HTTP 404 raises `CredentialNotFoundError`; the
code parses the body before looking at the 404 status, so this response
raises the generic `AgentIDError("Invalid response from API")` instead. -/
theorem claim10_counterexample :
    notFoundMalformedResponse.statusCode = 404 ∧
    handleVerifyResponse "cred_1" notFoundMalformedResponse =
      .error (.generic "Invalid response from API" none) ∧
    isNotFoundErr (handleVerifyResponse "cred_1" notFoundMalformedResponse) = false := by
  decide

/-- Claim C10 as amended: `load` raises one typed error per
remote-response failure class, in the source order — HTTP 429 raises
`RateLimitError` carrying an absent or integer `Retry-After` (a truthy
non-integer `Retry-After` instead escapes as an untyped `ValueError`);
then HTTP 401 raises `AuthenticationError`; then a body that fails to
parse raises a generic `AgentIDError` (so a 404 with an unparseable body
is NOT `CredentialNotFoundError`); then HTTP 404 or body error code
`CREDENTIAL_NOT_FOUND` raises `CredentialNotFoundError`; any other
non-2xx raises a generic `AgentIDError` carrying the remote error code;
a parsed result with `valid = false` raises `CredentialExpiredError` /
`CredentialRevokedError` / `CredentialInvalidError` by error code; and
`load` returns normally only for a response whose parsed body has
`valid = true`. -/
theorem claim10_load_typed_errors_amended :
    (∀ (cid : String) (resp : ApiResponse), resp.statusCode = 429 →
      resp.retryAfter = none →
      handleVerifyResponse cid resp = .error (.rateLimit none)) ∧
    (∀ (cid : String) (resp : ApiResponse) (s : String) (n : Int),
      resp.statusCode = 429 → resp.retryAfter = some s → s ≠ "" →
      pythonInt s = some n →
      handleVerifyResponse cid resp = .error (.rateLimit (some n))) ∧
    (∀ (cid : String) (resp : ApiResponse) (s : String),
      resp.statusCode = 429 → resp.retryAfter = some s → s ≠ "" →
      pythonInt s = none →
      handleVerifyResponse cid resp = .error .valueError) ∧
    (∀ (cid : String) (resp : ApiResponse), resp.statusCode = 401 →
      handleVerifyResponse cid resp = .error .authenticationFailed) ∧
    (∀ (cid : String) (resp : ApiResponse), resp.statusCode ≠ 429 →
      resp.statusCode ≠ 401 → resp.body = none →
      handleVerifyResponse cid resp =
        .error (.generic "Invalid response from API" none)) ∧
    (∀ (cid : String) (resp : ApiResponse) (data : VerificationResult),
      resp.statusCode ≠ 429 → resp.statusCode ≠ 401 → resp.body = some data →
      (resp.statusCode = 404 ∨ data.errorCode = some "CREDENTIAL_NOT_FOUND") →
      handleVerifyResponse cid resp =
        .error (.notFound s!"Credential not found: {cid}")) ∧
    (∀ (cid : String) (resp : ApiResponse) (data : VerificationResult),
      resp.statusCode ≠ 429 → resp.statusCode ≠ 401 → resp.body = some data →
      resp.statusCode ≠ 404 → data.errorCode ≠ some "CREDENTIAL_NOT_FOUND" →
      isSuccessStatus resp.statusCode = false →
      handleVerifyResponse cid resp =
        .error (.generic (data.error.getD "Unknown error") data.errorCode)) ∧
    (∀ result : VerificationResult, result.valid = false →
      result.errorCode = some "CREDENTIAL_EXPIRED" →
      updateFromResult result =
        .error (.expired (pyOrStr result.error "Credential expired"))) ∧
    (∀ result : VerificationResult, result.valid = false →
      result.errorCode = some "CREDENTIAL_REVOKED" →
      updateFromResult result =
        .error (.revoked (pyOrStr result.error "Credential revoked"))) ∧
    (∀ result : VerificationResult, result.valid = false →
      result.errorCode ≠ some "CREDENTIAL_EXPIRED" →
      result.errorCode ≠ some "CREDENTIAL_REVOKED" →
      updateFromResult result =
        .error (.invalid (pyOrStr result.error "Credential invalid"))) ∧
    (∀ (cid : String) (outcome : FetchOutcome) (cred : CredentialPayload),
      loadFetchResult cid outcome = .ok cred →
      ∃ resp data, outcome = .response resp ∧ resp.body = some data ∧
        data.valid = true ∧ data.credential = some cred) := by
  refine ⟨?_, ?_, ?_, ?_, ?_, ?_, ?_, ?_, ?_, ?_, ?_⟩
  · intro cid resp h1 h2
    simp [handleVerifyResponse, h1, parseRetryAfter, h2, pyTruthy]
  · intro cid resp s n h1 h2 h3 h4
    simp [handleVerifyResponse, h1, parseRetryAfter, h2, pyTruthy, h3, h4]
  · intro cid resp s h1 h2 h3 h4
    simp [handleVerifyResponse, h1, parseRetryAfter, h2, pyTruthy, h3, h4]
  · intro cid resp h1
    simp [handleVerifyResponse, h1]
  · intro cid resp h1 h2 h3
    simp [handleVerifyResponse, h1, h2, h3]
  · intro cid resp data h1 h2 h3 h4
    have hcond : ((resp.statusCode == 404) ||
        (data.errorCode == some "CREDENTIAL_NOT_FOUND")) = true := by
      rcases h4 with h4 | h4 <;> simp [h4]
    simp [handleVerifyResponse, h1, h2, h3, hcond]
  · intro cid resp data h1 h2 h3 h4 h5 h6
    have hcond : ((resp.statusCode == 404) ||
        (data.errorCode == some "CREDENTIAL_NOT_FOUND")) = false := by
      simp [h4, h5]
    simp [handleVerifyResponse, h1, h2, h3, hcond, h6]
  · intro result h1 h2
    simp [updateFromResult, h1, h2]
  · intro result h1 h2
    simp [updateFromResult, h1, h2]
  · intro result h1 h2 h3
    simp only [updateFromResult, h1, Bool.not_false, if_true]
  · intro cid outcome cred h
    cases outcome with
    | networkFailure => simp [loadFetchResult] at h
    | response resp =>
      simp only [loadFetchResult] at h
      split at h
      next e heq => simp at h
      next result heq =>
        split at h
        next e heq2 => simp at h
        next heq2 => simp at h
        next c2 heq2 =>
          obtain rfl : c2 = cred := by simpa using h
          obtain ⟨hv, hc⟩ := updateFromResult_ok result (some c2) heq2
          exact ⟨resp, result, rfl, handleVerifyResponse_ok_body cid resp result heq,
            hv, hc⟩

/-- Witness for the amended C10: one response per failure class, plus the
invalid-result branches. -/
theorem claim10_witness :
    handleVerifyResponse "c" { statusCode := 429, body := none } =
      .error (.rateLimit none) ∧
    handleVerifyResponse "c" { statusCode := 429, retryAfter := some "7" } =
      .error (.rateLimit (some 7)) ∧
    handleVerifyResponse "c" { statusCode := 429, retryAfter := some "later" } =
      .error .valueError ∧
    handleVerifyResponse "c" { statusCode := 401 } =
      .error .authenticationFailed ∧
    handleVerifyResponse "c" { statusCode := 404, body := some { valid := false } } =
      .error (.notFound "Credential not found: c") ∧
    handleVerifyResponse "c" { statusCode := 500, body := some { valid := false, error := some "boom", errorCode := some "X" } } = .error (.generic "boom" (some "X")) ∧
    updateFromResult { valid := false, errorCode := some "CREDENTIAL_EXPIRED" } =
      .error (.expired "Credential expired") ∧
    updateFromResult { valid := false, errorCode := some "CREDENTIAL_REVOKED" } =
      .error (.revoked "Credential revoked") ∧
    updateFromResult { valid := false } = .error (.invalid "Credential invalid") := by
  refine ⟨?_, ?_, ?_, ?_, ?_, ?_, ?_, ?_, ?_⟩
  · exact claim10_load_typed_errors_amended.1 "c" _ rfl rfl
  · exact claim10_load_typed_errors_amended.2.1 "c" _ "7" 7 rfl rfl (by decide)
      (by decide)
  · exact claim10_load_typed_errors_amended.2.2.1 "c" _ "later" rfl rfl (by decide)
      (by decide)
  · exact claim10_load_typed_errors_amended.2.2.2.1 "c" _ rfl
  · exact claim10_load_typed_errors_amended.2.2.2.2.2.1 "c" _ { valid := false }
      (by decide) (by decide) rfl (Or.inl rfl)
  · exact claim10_load_typed_errors_amended.2.2.2.2.2.2.1 "c" _
      { valid := false, error := some "boom", errorCode := some "X" }
      (by decide) (by decide) rfl (by decide) (by decide) (by decide)
  · exact claim10_load_typed_errors_amended.2.2.2.2.2.2.2.1 _ rfl rfl
  · exact claim10_load_typed_errors_amended.2.2.2.2.2.2.2.2.1 _ rfl rfl
  · exact claim10_load_typed_errors_amended.2.2.2.2.2.2.2.2.2.1 _ rfl (by decide)
      (by decide)
